import Mathlib

/-!
Shallow embedding of `src/packages/core/onClickOutside/index.ts` (the
outside-click detector of this repository) and of its module-global iOS
workaround flag.

DOM elements are modelled as natural numbers.  Every event carries an
environment snapshot (`Env`): the resolution of the watched target
reference (`unrefElement(target)`), the resolution of reference entries
of the ignore list, the result of `document.querySelectorAll`, the
document's active element, the `tagName === 'IFRAME'` test and the
`Element.contains` relation — exactly the DOM queries the source
performs, re-evaluated on every event as the source does.

A detector instance's mutable state (`DetState`) holds `shouldListen`,
the `stopDragListener` reference (`tracked`, the id of the pointermove
subscription it would stop), the set of currently registered pointermove
subscriptions created by `startDragListener` (`subs`, in registration
order, each with the pointerdown origin captured by its closure), and
whether the listeners of the `cleanup` array (click, pointerdown and —
with `detectIframe` — blur) are still registered (`mainActive`).
`stop` runs exactly the `cleanup` array, so it clears `mainActive` and
touches nothing else — in particular `subs` survives, as in the source.
Handler invocations are collected as the output list of each step.
-/

namespace ClickOutside

abbrev Elem := Nat

/-- A pointer event as the source reads it: `event.target`,
`event.composedPath()`, `event.detail`, `event.x`, `event.y`. -/
structure PEvent where
  target : Elem
  path : List Elem
  detail : Nat
  x : Int
  y : Int
deriving DecidableEq

/-- An entry of the `ignore` option: a CSS selector string or a
target-reference handle (identified by an index, resolved through the
environment). -/
inductive IgnoreEntry
  | sel (s : String)
  | ref (idx : Nat)
deriving DecidableEq

/-- The DOM facts an event handler can observe at handling time. -/
structure Env where
  resolveTarget : Option Elem
  resolveRef : Nat → Option Elem
  query : String → List Elem
  activeElement : Option Elem
  isIframe : Elem → Bool
  containsRel : Elem → Elem → Bool

/-- The `ignoreDragging` option: `false`, `true`, or `{ distance }`. -/
inductive IgnoreDragging
  | off
  | on
  | withDistance (d : Int)
deriving DecidableEq

/-- Truthiness of the `ignoreDragging` option, as tested by
`if (shouldListen && ignoreDragging)`. -/
def IgnoreDragging.truthy : IgnoreDragging → Bool
  | .off => false
  | .on => true
  | .withDistance _ => true

/-- The options of one detector instance (capture only affects the
dispatch phase and is not modelled). -/
structure Config where
  ignore : List IgnoreEntry
  ignoreDragging : IgnoreDragging
  detectIframe : Bool

/-- One pointermove subscription registered by `startDragListener`:
its registration id and the pointerdown origin its closure captured. -/
structure DragSub where
  sid : Nat
  x : Int
  y : Int
deriving DecidableEq

/-- Mutable state of one detector instance. -/
structure DetState where
  shouldListen : Bool
  tracked : Option Nat
  subs : List DragSub
  nextId : Nat
  mainActive : Bool
deriving DecidableEq

/-- A handler invocation: `handler(event)` with a click event, or with
the blur event (identified by an id). -/
inductive HCall
  | ofClick (ev : PEvent)
  | ofBlur (bid : Nat)
deriving DecidableEq

/-- The source's `shouldIgnore`: some ignore entry matches — a string
entry via `querySelectorAll` hits `event.target` or the composed path, a
reference entry via its resolved element. -/
def shouldIgnore (env : Env) (ignore : List IgnoreEntry) (ev : PEvent) : Bool :=
  ignore.any fun t =>
    match t with
    | .sel s => (env.query s).any fun el => el == ev.target || ev.path.contains el
    | .ref i =>
      match env.resolveRef i with
      | some el => el == ev.target || ev.path.contains el
      | none => false

/-- Effect of calling the current `stopDragListener`, when set: the
subscription it refers to is unregistered (a second call, or a call
after that subscription already unregistered itself, is a no-op; the
reference itself is not cleared, as in the source). -/
def stopTracked (s : DetState) : DetState :=
  match s.tracked with
  | none => s
  | some tid => { s with subs := s.subs.filter fun d => !(d.sid == tid) }

/-- The source's `startDragListener`: registers a new pointermove
subscription capturing the pointerdown coordinates and overwrites
`stopDragListener` with the new subscription's stop function. -/
def startDragListener (ev : PEvent) (s : DetState) : DetState :=
  { s with
      subs := s.subs ++ [⟨s.nextId, ev.x, ev.y⟩],
      tracked := some s.nextId,
      nextId := s.nextId + 1 }

/-- The source's `listener` (the click handler): stop drag tracking,
resolve the target, return if unresolved or the click is on/inside it;
for a synthetic click (`detail === 0`) recompute `shouldListen` from the
ignore check; if `shouldListen` is false, reset it and return; otherwise
invoke the handler with the event. -/
def listener (cfg : Config) (env : Env) (ev : PEvent) (s : DetState) :
    DetState × List HCall :=
  let s1 := stopTracked s
  match env.resolveTarget with
  | none => (s1, [])
  | some el =>
    if el == ev.target || ev.path.contains el then
      (s1, [])
    else
      let s2 :=
        if ev.detail == 0 then
          { s1 with shouldListen := !shouldIgnore env cfg.ignore ev }
        else s1
      if !s2.shouldListen then
        ({ s2 with shouldListen := true }, [])
      else
        (s2, [HCall.ofClick ev])

/-- The source's pointerdown handler: recompute `shouldListen`
(`!shouldIgnore(e) && !!(el && !e.composedPath().includes(el))`) and, if
it is true and `ignoreDragging` is truthy, start drag tracking. -/
def pointerdownListener (cfg : Config) (env : Env) (ev : PEvent) (s : DetState) :
    DetState × List HCall :=
  let sl := !shouldIgnore env cfg.ignore ev &&
    (match env.resolveTarget with
     | some el => !ev.path.contains el
     | none => false)
  let s1 := { s with shouldListen := sl }
  if sl && cfg.ignoreDragging.truthy then
    (startDragListener ev s1, [])
  else
    (s1, [])

/-- Manhattan distance of a pointermove event from the origin a
subscription's closure captured: `Math.abs(x - e.x) + Math.abs(y - e.y)`. -/
def moveDelta (d : DragSub) (ev : PEvent) : Nat :=
  (d.x - ev.x).natAbs + (d.y - ev.y).natAbs

/-- Dispatch of one pointermove event: each subscription registered at
dispatch start runs, in registration order, unless it was unregistered
meanwhile; a subscription whose captured origin is further than 4 units
(the literal threshold of the source) sets `shouldListen := false` and
calls the current `stopDragListener`. -/
def pointermoveDispatch (ev : PEvent) (s : DetState) : DetState × List HCall :=
  (s.subs.foldl
    (fun st d =>
      if st.subs.any fun d2 => d2.sid == d.sid then
        if 4 < moveDelta d ev then
          { stopTracked st with shouldListen := false }
        else st
      else st)
    s, [])

/-- The condition of the source's blur handler, evaluated after the
zero-delay deferral: the active element is an iframe
(`activeElement?.tagName === 'IFRAME'`) and `!el?.contains(activeElement)`
— which is true when the target is unresolved. -/
def blurFires (env : Env) : Bool :=
  match env.activeElement with
  | some a =>
    env.isIframe a &&
      !(match env.resolveTarget with
        | some el => env.containsRel el a
        | none => false)
  | none => false

/-- The source's blur handler (registered only with `detectIframe`):
invoke the handler with the blur event when `blurFires`; no per-gesture
state is read or written. -/
def blurListener (env : Env) (bid : Nat) (s : DetState) : DetState × List HCall :=
  if blurFires env then (s, [HCall.ofBlur bid]) else (s, [])

/-- An occurrence the instance may react to: a dispatched click,
pointerdown, pointermove or blur event, or a call of the returned stop
handle. -/
inductive Ev
  | click (env : Env) (ev : PEvent)
  | pointerdown (env : Env) (ev : PEvent)
  | pointermove (ev : PEvent)
  | blur (env : Env) (bid : Nat)
  | stop

/-- One step of a detector instance.  The click, pointerdown and blur
listeners run only while the `cleanup` listeners are registered (the
blur one only when `detectIframe`); pointermove subscriptions are NOT in
the `cleanup` array, so they run regardless of `mainActive`; `stop` runs
the `cleanup` array and nothing else. -/
def step (cfg : Config) (s : DetState) (e : Ev) : DetState × List HCall :=
  match e with
  | .click env ev => if s.mainActive then listener cfg env ev s else (s, [])
  | .pointerdown env ev =>
    if s.mainActive then pointerdownListener cfg env ev s else (s, [])
  | .pointermove ev => pointermoveDispatch ev s
  | .blur env bid =>
    if s.mainActive && cfg.detectIframe then blurListener env bid s else (s, [])
  | .stop => ({ s with mainActive := false }, [])

/-- Run a detector instance over a sequence of occurrences, collecting
the handler invocations. -/
def run (cfg : Config) (s : DetState) : List Ev → DetState × List HCall
  | [] => (s, [])
  | e :: es =>
    let p := step cfg s e
    let q := run cfg p.1 es
    (q.1, p.2 ++ q.2)

/-- The state right after a successful install: `shouldListen = true`,
no drag subscription, `cleanup` listeners registered. -/
def initState : DetState :=
  { shouldListen := true, tracked := none, subs := [], nextId := 0,
    mainActive := true }

/-- Kinds of listeners the install registers through the `cleanup` array. -/
inductive ListenerKind
  | lclick
  | lpointerdown
  | lblur
deriving DecidableEq

/-- The listeners registered on install: click, pointerdown, and blur
only when `detectIframe`. -/
def installedListeners (cfg : Config) : List ListenerKind :=
  [ListenerKind.lclick, ListenerKind.lpointerdown] ++
    (if cfg.detectIframe then [ListenerKind.lblur] else [])

/-- The source's `onClickOutside` entry: if no window is available it
returns the no-op handle before registering anything; otherwise it
returns a live instance and registers the `cleanup` listeners. -/
def onClickOutside (hasWindow : Bool) (cfg : Config) :
    Option DetState × List ListenerKind :=
  if hasWindow then (some initState, installedListeners cfg) else (none, [])

/-- Handler invocations of an install over a sequence of occurrences: a
no-op handle has no listeners, so it never produces any. -/
def runInstalled (cfg : Config) (inst : Option DetState) (evs : List Ev) :
    List HCall :=
  match inst with
  | none => []
  | some s => (run cfg s evs).2

/-- Process-wide state of the iOS workaround: the module-global
`_iOSWorkaround` flag. -/
structure Process where
  iOSApplied : Bool
deriving DecidableEq

/-- Effect of one `onClickOutside` call on the process state: after the
window check, on iOS with the flag unset, set the flag and apply the
workaround (returned Boolean: whether the no-op click listeners were
installed by this call). -/
def installProcess (isIOS : Bool) (hasWindow : Bool) (p : Process) :
    Process × Bool :=
  if !hasWindow then (p, false)
  else if isIOS && !p.iOSApplied then ({ iOSApplied := true }, true)
  else (p, false)

/-- How many of a sequence of `onClickOutside` calls (each given by
whether a window is available) apply the iOS workaround. -/
def appliedCount (isIOS : Bool) (p : Process) : List Bool → Nat
  | [] => 0
  | w :: ws =>
    let q := installProcess isIOS w p
    (if q.2 then 1 else 0) + appliedCount isIOS q.1 ws

/-! Concrete fixtures: a document where the watched target resolves to
element 100, clicks land on element 5 whose composed path is [5, 0], and
(for the iframe scenarios) element 3 is an iframe. -/

/-- Environment where the watched target resolves to element 100 and
nothing matches any selector or reference. -/
def envA : Env :=
  { resolveTarget := some 100
    resolveRef := fun _ => none
    query := fun _ => []
    activeElement := none
    isIframe := fun _ => false
    containsRel := fun _ _ => false }

/-- Environment where the watched target does not resolve and the active
element is iframe 3. -/
def envNoTarget : Env :=
  { resolveTarget := none
    resolveRef := fun _ => none
    query := fun _ => []
    activeElement := some 3
    isIframe := fun e => e == 3
    containsRel := fun _ _ => false }

/-- Environment where the target resolves to 100, the active element is
iframe 3, and 3 is not contained in 100. -/
def envIframeOut : Env :=
  { resolveTarget := some 100
    resolveRef := fun _ => none
    query := fun _ => []
    activeElement := some 3
    isIframe := fun e => e == 3
    containsRel := fun _ _ => false }

/-- Environment where the target resolves to 100, the active element is
iframe 3, and 3 IS contained in 100. -/
def envIframeIn : Env :=
  { resolveTarget := some 100
    resolveRef := fun _ => none
    query := fun _ => []
    activeElement := some 3
    isIframe := fun e => e == 3
    containsRel := fun el a => el == 100 && a == 3 }

/-- Environment where the target resolves to 100 and every selector
query returns element 5 (so clicks on 5 match string ignore entries). -/
def envSelHit : Env :=
  { resolveTarget := some 100
    resolveRef := fun _ => none
    query := fun _ => [5]
    activeElement := none
    isIframe := fun _ => false
    containsRel := fun _ _ => false }

/-- A pointerdown on element 5 (outside the watched element) at (0, 0). -/
def evPd : PEvent := { target := 5, path := [5, 0], detail := 1, x := 0, y := 0 }

/-- A pointermove to (5, 1): Manhattan distance 6 from (0, 0). -/
def evMv6 : PEvent := { target := 5, path := [5, 0], detail := 0, x := 5, y := 1 }

/-- A pointermove to (2, 1): Manhattan distance 3 from (0, 0). -/
def evMv3 : PEvent := { target := 5, path := [5, 0], detail := 0, x := 2, y := 1 }

/-- A genuine click (detail 1) on element 5, outside the watched element. -/
def evClickOut : PEvent := { target := 5, path := [5, 0], detail := 1, x := 5, y := 1 }

/-- A genuine click directly on the watched element 100. -/
def evClickIn : PEvent := { target := 100, path := [100, 0], detail := 1, x := 5, y := 1 }

/-- A synthetic click (detail 0) on element 5, outside the watched element. -/
def evSynth : PEvent := { target := 5, path := [5, 0], detail := 0, x := 0, y := 0 }

/-- Options: `ignoreDragging: { distance: 10 }`. -/
def cfgDist10 : Config :=
  { ignore := [], ignoreDragging := .withDistance 10, detectIframe := false }

/-- Options: `ignoreDragging: true`. -/
def cfgDrag : Config :=
  { ignore := [], ignoreDragging := .on, detectIframe := false }

/-- Options: `detectIframe: true`. -/
def cfgIframe : Config :=
  { ignore := [], ignoreDragging := .off, detectIframe := true }

/-- Options: `detectIframe: true` with a selector ignore entry and
dragging suppression. -/
def cfgIgnSel : Config :=
  { ignore := [IgnoreEntry.sel ".x"], ignoreDragging := .on, detectIframe := true }

/-- Environment where the target resolves to 100, the active element is
iframe 3 (not contained in 100), and selector queries return 3, so the
iframe matches the selector ignore entry of `cfgIgnSel`. -/
def envIfIgn : Env :=
  { resolveTarget := some 100
    resolveRef := fun _ => none
    query := fun _ => [3]
    activeElement := some 3
    isIframe := fun e => e == 3
    containsRel := fun _ _ => false }

/-- A mid-gesture state: drag suppression has fired (`shouldListen` is
false) and one drag-tracking subscription is registered. -/
def sDrag : DetState :=
  { shouldListen := false, tracked := some 0, subs := [⟨0, 0, 0⟩], nextId := 1,
    mainActive := true }

/-! Helper lemmas. -/

theorem stopTracked_shouldListen (s : DetState) :
    (stopTracked s).shouldListen = s.shouldListen := by
  unfold stopTracked
  cases s.tracked <;> rfl

theorem installProcess_of_applied (iw w : Bool) (p : Process)
    (hp : p.iOSApplied = true) : installProcess iw w p = (p, false) := by
  unfold installProcess
  cases w <;> simp [hp]

theorem appliedCount_of_applied (iw : Bool) (p : Process)
    (hp : p.iOSApplied = true) :
    ∀ ws : List Bool, appliedCount iw p ws = 0 := by
  intro ws
  induction ws with
  | nil => rfl
  | cons w ws ih => simp [appliedCount, installProcess_of_applied iw w p hp, ih]

theorem appliedCount_le_one :
    ∀ (ws : List Bool) (p : Process), appliedCount true p ws ≤ 1 := by
  intro ws
  induction ws with
  | nil => intro p; simp [appliedCount]
  | cons w ws ih =>
    intro p
    by_cases hp : p.iOSApplied = true
    · rw [appliedCount, installProcess_of_applied true w p hp]
      simp [appliedCount_of_applied true p hp ws]
    · have hp' : p.iOSApplied = false := by simpa using hp
      cases w
      · simpa [appliedCount, installProcess] using ih p
      · simp [appliedCount, installProcess, hp',
          appliedCount_of_applied true ⟨true⟩ rfl ws]

theorem appliedCount_replicate_false (iw : Bool) (p : Process) :
    ∀ (n : Nat) (ws : List Bool),
      appliedCount iw p (List.replicate n false ++ ws) = appliedCount iw p ws := by
  intro n
  induction n with
  | zero => intro ws; rfl
  | succ n ih =>
    intro ws
    simpa [List.replicate, appliedCount, installProcess] using ih ws

/-! Claim theorems. -/

/-- C2: the claim says a gesture is suppressed as a drag exactly when its
movement exceeds the CONFIGURED distance threshold.  The code compares
against the literal 4 and never reads the configured `distance`: with
`ignoreDragging: { distance: 10 }`, a pointerdown at (0,0), a pointermove
of Manhattan distance 6 (≤ 10, so by the claim not a drag) and an outside
click, the handler is NOT invoked; the same gesture with movement 3 is. -/
theorem C2_distance_option_unused :
    runInstalled cfgDist10 (onClickOutside true cfgDist10).1
      [Ev.pointerdown envA evPd, Ev.pointermove evMv6, Ev.click envA evClickOut]
      = []
    ∧ moveDelta ⟨0, 0, 0⟩ evMv6 = 6
    ∧ runInstalled cfgDist10 (onClickOutside true cfgDist10).1
        [Ev.pointerdown envA evPd, Ev.pointermove evMv3, Ev.click envA evClickOut]
        = [HCall.ofClick evClickOut] := by
  decide

/-- C3: the claim says the stop handle removes every listener including a
still-active pointermove drag-tracking subscription.  The code's `stop`
runs only the `cleanup` array: after a qualifying pointerdown (which
starts drag tracking) followed by `stop`, the drag subscription is still
registered, and a later pointermove still mutates the instance's state. -/
theorem C3_stop_leaks_drag_subscription :
    (run cfgDrag initState [Ev.pointerdown envA evPd, Ev.stop]).1.subs.length = 1
    ∧ (run cfgDrag initState [Ev.pointerdown envA evPd, Ev.stop]).1.mainActive = false
    ∧ (run cfgDrag initState
        [Ev.pointerdown envA evPd, Ev.stop, Ev.pointermove evMv6]).1.shouldListen
        = false := by
  decide

/-- C6: the claim says at most one drag-tracking subscription is active at
any time, even across consecutive pointerdown events with no intervening
click.  The code's `startDragListener` overwrites `stopDragListener`
without stopping the previous subscription: two consecutive qualifying
pointerdowns leave two pointermove subscriptions registered. -/
theorem C6_two_drag_subscriptions :
    (run cfgDrag initState
      [Ev.pointerdown envA evPd, Ev.pointerdown envA evPd]).1.subs.length = 2
    ∧ (run cfgDrag initState
        [Ev.pointerdown envA evPd, Ev.pointerdown envA evPd]).1.tracked = some 1 := by
  decide

/-- C7: with no resolvable window, `onClickOutside` returns the no-op
handle before doing anything: no listener is installed and no sequence of
occurrences ever produces a handler invocation. -/
theorem C7_no_window_noop (cfg : Config) :
    onClickOutside false cfg = (none, [])
    ∧ ∀ evs : List Ev, runInstalled cfg (onClickOutside false cfg).1 evs = [] := by
  exact ⟨rfl, fun _ => rfl⟩

/-- C4 fails as stated: on a blur event with `detectIframe` while the
target reference resolves to nothing, the handler IS invoked when the
active element is an iframe (`!el?.contains(...)` is true for an
undefined `el`), so an unresolved target does not always pass the event
through. -/
theorem C4_counterexample :
    (step cfgIframe initState (Ev.blur envNoTarget 7)).2 = [HCall.ofBlur 7] := by
  decide

/-- C4 amended: when the target reference resolves to nothing, click and
pointerdown events pass through without invoking the handler; the blur
path, however, invokes the handler whenever the active element is an
iframe, since the containment check passes vacuously without a target. -/
theorem C4_unresolved_target (cfg : Config) (env : Env) (ev : PEvent)
    (bid : Nat) (s : DetState) (hres : env.resolveTarget = none) :
    (step cfg s (Ev.click env ev)).2 = []
    ∧ (step cfg s (Ev.pointerdown env ev)).2 = []
    ∧ (s.mainActive = true → cfg.detectIframe = true →
        ∀ a : Elem, env.activeElement = some a → env.isIframe a = true →
          (step cfg s (Ev.blur env bid)).2 = [HCall.ofBlur bid]) := by
  refine ⟨?_, ?_, ?_⟩
  · cases hact : s.mainActive <;> simp [step, hact, listener, hres]
  · cases hact : s.mainActive <;>
      simp [step, hact, pointerdownListener, hres, startDragListener]
  · intro hact hdf a hae hif
    simp [step, hact, hdf, blurListener, blurFires, hres, hae, hif]

/-- C4 witness: the amended claim at the concrete fixtures. -/
theorem C4_unresolved_target_witness :
    (step cfgIframe initState (Ev.click envNoTarget evClickOut)).2 = []
    ∧ (step cfgIframe initState (Ev.pointerdown envNoTarget evPd)).2 = []
    ∧ (step cfgIframe initState (Ev.blur envNoTarget 9)).2 = [HCall.ofBlur 9] :=
  ⟨(C4_unresolved_target cfgIframe envNoTarget evClickOut 9 initState rfl).1,
   (C4_unresolved_target cfgIframe envNoTarget evPd 9 initState rfl).2.1,
   (C4_unresolved_target cfgIframe envNoTarget evPd 9 initState rfl).2.2
     rfl rfl 3 rfl rfl⟩

/-- C9: on the affected platform the iOS workaround is applied at most
once per process; it is applied exactly by the first call that has a
window (however many windowless calls precede it), and once the
process-wide flag is set, it is never reset and no later call re-applies
the workaround. -/
theorem C9_ios_workaround_once :
    (∀ ws : List Bool, appliedCount true ⟨false⟩ ws ≤ 1)
    ∧ (∀ (n : Nat) (ws : List Bool),
        appliedCount true ⟨false⟩ (List.replicate n false ++ true :: ws) = 1)
    ∧ (∀ p : Process, p.iOSApplied = true →
        ∀ w : Bool, installProcess true w p = (p, false)) := by
  refine ⟨fun ws => appliedCount_le_one ws ⟨false⟩, fun n ws => ?_,
    fun p hp w => installProcess_of_applied true w p hp⟩
  rw [appliedCount_replicate_false true ⟨false⟩ n (true :: ws)]
  simp [appliedCount, installProcess, appliedCount_of_applied true ⟨true⟩ rfl ws]

/-- C9 witness: the theorem at concrete sequences and a concrete
already-applied process state. -/
theorem C9_ios_workaround_once_witness :
    appliedCount true ⟨false⟩ [false, true, true] ≤ 1
    ∧ appliedCount true ⟨false⟩ (List.replicate 1 false ++ true :: [true]) = 1
    ∧ installProcess true true ⟨true⟩ = (⟨true⟩, false) :=
  ⟨C9_ios_workaround_once.1 [false, true, true],
   C9_ios_workaround_once.2.1 1 [true],
   C9_ios_workaround_once.2.2 ⟨true⟩ rfl true⟩

/-- C1: while the instance is active and the target resolves, a click on
the watched element or whose composed path includes it never invokes the
handler; a click outside it that matches no ignore entry and is not
suppressed (not flagged by a drag and, if genuine, `shouldListen` still
true — a synthetic `detail = 0` click recomputes it from the ignore
check) invokes the handler exactly once, with that click event. -/
theorem C1_outside_click (cfg : Config) (env : Env) (ev : PEvent)
    (s : DetState) (el : Elem) (hact : s.mainActive = true)
    (hres : env.resolveTarget = some el) :
    ((el = ev.target ∨ ev.path.contains el = true) →
      (step cfg s (Ev.click env ev)).2 = [])
    ∧ (el ≠ ev.target → ev.path.contains el = false →
        shouldIgnore env cfg.ignore ev = false →
        (ev.detail = 0 ∨ s.shouldListen = true) →
        (step cfg s (Ev.click env ev)).2 = [HCall.ofClick ev]) := by
  constructor
  · intro hin
    have hor : el = ev.target ∨ el ∈ ev.path := by
      rcases hin with h | h
      · exact Or.inl h
      · exact Or.inr (by simpa using h)
    simp [step, hact, listener, hres, hor]
  · intro hne hnp hig hsl
    have hnmem : el ∉ ev.path := by simpa using hnp
    rcases hsl with hd | hsl
    · simp [step, hact, listener, hres, hne, hnmem, hd, hig]
    · by_cases hd : ev.detail = 0
      · simp [step, hact, listener, hres, hne, hnmem, hd, hig]
      · have hd' : (ev.detail == 0) = false := by simp [hd]
        simp [step, hact, listener, hres, hne, hnmem, hd',
          stopTracked_shouldListen, hsl]

/-- C1 witness: a click on the watched element 100 is not reported, a
genuine unignored click on element 5 outside it is reported once. -/
theorem C1_outside_click_witness :
    (step cfgDrag initState (Ev.click envA evClickIn)).2 = []
    ∧ (step cfgDrag initState (Ev.click envA evClickOut)).2
        = [HCall.ofClick evClickOut] :=
  ⟨(C1_outside_click cfgDrag envA evClickIn initState 100 rfl rfl).1
      (Or.inl rfl),
   (C1_outside_click cfgDrag envA evClickOut initState 100 rfl rfl).2
      (by decide) (by decide) (by decide) (Or.inr rfl)⟩

/-- C5: with `detectIframe`, when the target resolves and the deferred
check finds an active element, the handler is invoked with the blur
event exactly when that element is an iframe not contained in the
watched element; when the iframe is contained in it, nothing happens. -/
theorem C5_blur_iframe (cfg : Config) (env : Env) (bid : Nat)
    (s : DetState) (el a : Elem) (hact : s.mainActive = true)
    (hdf : cfg.detectIframe = true) (hres : env.resolveTarget = some el)
    (hae : env.activeElement = some a) :
    ((step cfg s (Ev.blur env bid)).2 = [HCall.ofBlur bid] ↔
      env.isIframe a = true ∧ env.containsRel el a = false)
    ∧ (env.containsRel el a = true → (step cfg s (Ev.blur env bid)).2 = []) := by
  constructor
  · by_cases hi : env.isIframe a <;> by_cases hc : env.containsRel el a <;>
      simp [step, hact, hdf, blurListener, blurFires, hres, hae, hi, hc]
  · intro hc
    simp [step, hact, hdf, blurListener, blurFires, hres, hae, hc]

/-- C5 witness: the theorem at a non-contained iframe (reported) and at a
contained one (not reported). -/
theorem C5_blur_iframe_witness :
    ((step cfgIframe initState (Ev.blur envIframeOut 2)).2 = [HCall.ofBlur 2] ↔
      envIframeOut.isIframe 3 = true ∧ envIframeOut.containsRel 100 3 = false)
    ∧ (step cfgIframe initState (Ev.blur envIframeIn 2)).2 = [] :=
  ⟨(C5_blur_iframe cfgIframe envIframeOut 2 initState 100 3 rfl rfl rfl rfl).1,
   (C5_blur_iframe cfgIframe envIframeIn 2 initState 100 3 rfl rfl rfl rfl).2
     rfl⟩

/-- C8: on a click outside the resolved watched element, if the click is
synthetic (`detail = 0`) the outcome is recomputed solely from the
ignore check — ignored means suppressed, not ignored means invoked,
whatever `shouldListen` was — and whenever the effective `shouldListen`
at click time is false the call is suppressed and `shouldListen` is
reset to true for the next gesture. -/
theorem C8_synthetic_click (cfg : Config) (env : Env) (ev : PEvent)
    (s : DetState) (el : Elem) (hact : s.mainActive = true)
    (hres : env.resolveTarget = some el) (hne : el ≠ ev.target)
    (hnp : ev.path.contains el = false) :
    (ev.detail = 0 →
      (step cfg s (Ev.click env ev)).2 =
        (if shouldIgnore env cfg.ignore ev then [] else [HCall.ofClick ev])
      ∧ (step cfg s (Ev.click env ev)).1.shouldListen = true)
    ∧ ((if ev.detail == 0 then !shouldIgnore env cfg.ignore ev
        else s.shouldListen) = false →
      (step cfg s (Ev.click env ev)).2 = []
      ∧ (step cfg s (Ev.click env ev)).1.shouldListen = true) := by
  have hnmem : el ∉ ev.path := by simpa using hnp
  constructor
  · intro hd
    by_cases hig : shouldIgnore env cfg.ignore ev <;>
      simp [step, hact, listener, hres, hne, hnmem, hd, hig]
  · intro hfalse
    by_cases hd : ev.detail = 0
    · rw [if_pos (by simp [hd])] at hfalse
      have hig : shouldIgnore env cfg.ignore ev = true := by
        simpa using hfalse
      simp [step, hact, listener, hres, hne, hnmem, hd, hig]
    · have hd' : (ev.detail == 0) = false := by simp [hd]
      rw [if_neg (by simp [hd])] at hfalse
      simp [step, hact, listener, hres, hne, hnmem, hd',
        stopTracked_shouldListen, hfalse]

/-- C8 witness: a synthetic click on element 5 matching the selector
ignore entry is suppressed and `shouldListen` ends up true. -/
theorem C8_synthetic_click_witness :
    ((step cfgIgnSel initState (Ev.click envSelHit evSynth)).2 =
        (if shouldIgnore envSelHit cfgIgnSel.ignore evSynth then []
         else [HCall.ofClick evSynth])
      ∧ (step cfgIgnSel initState (Ev.click envSelHit evSynth)).1.shouldListen
          = true)
    ∧ ((step cfgIgnSel initState (Ev.click envSelHit evSynth)).2 = []
      ∧ (step cfgIgnSel initState (Ev.click envSelHit evSynth)).1.shouldListen
          = true) :=
  ⟨(C8_synthetic_click cfgIgnSel envSelHit evSynth initState 100
      rfl rfl (by decide) (by decide)).1 rfl,
   (C8_synthetic_click cfgIgnSel envSelHit evSynth initState 100
      rfl rfl (by decide) (by decide)).2 (by decide)⟩

/-- C10: the blur path neither reads nor writes per-gesture state and
consults neither the ignore list nor the dragging option: the state is
unchanged, and the output is the same across any two active states and
any two configurations with `detectIframe` enabled. -/
theorem C10_blur_ignores_gesture_state (env : Env) (bid : Nat)
    (s s' : DetState) (cfg cfg' : Config) (hdf : cfg.detectIframe = true)
    (hdf' : cfg'.detectIframe = true) (hact : s.mainActive = true)
    (hact' : s'.mainActive = true) :
    (step cfg s (Ev.blur env bid)).1 = s
    ∧ (step cfg s (Ev.blur env bid)).2 = (step cfg' s' (Ev.blur env bid)).2 := by
  by_cases hb : blurFires env <;>
    simp [step, hact, hact', hdf, hdf', blurListener, hb]

/-- C10 witness: mid-drag, with `shouldListen` false and the focused
iframe matching the ignore entry, the blur path still reports the blur,
leaves the state untouched, and agrees with a fresh unignored instance. -/
theorem C10_blur_ignores_gesture_state_witness :
    (step cfgIgnSel sDrag (Ev.blur envIfIgn 3)).1 = sDrag
    ∧ (step cfgIgnSel sDrag (Ev.blur envIfIgn 3)).2 =
        (step cfgIframe initState (Ev.blur envIfIgn 3)).2
    ∧ (step cfgIgnSel sDrag (Ev.blur envIfIgn 3)).2 = [HCall.ofBlur 3] :=
  ⟨(C10_blur_ignores_gesture_state envIfIgn 3 sDrag initState cfgIgnSel
      cfgIframe rfl rfl rfl rfl).1,
   (C10_blur_ignores_gesture_state envIfIgn 3 sDrag initState cfgIgnSel
      cfgIframe rfl rfl rfl rfl).2,
   by decide⟩

end ClickOutside
